import Mathlib

/-!
Verification of the grading core in `solution_checker/solution_checker.py`.

The source is shallowly embedded: the container engine, the per-test command
executions, the thread-timeout supervision and the lint collaborator are
modelled as explicit inputs (an oracle record), and each Python function of
the core becomes a Lean function over those inputs.  Wall-clock durations
(`check_time`, `build_time`, floats in the source) are not modelled: no claim
refers to their numeric values.
-/

/-! ### Verdict taxonomy (lines 19-27) -/

def STATUS_OK : Int := 0
def STATUS_CHECKING : Int := 1
def STATUS_BUILD_ERROR : Int := 2
def STATUS_RUNTIME_ERROR : Int := 3
def STATUS_CHECK_ERROR : Int := 4
def STATUS_RUNTIME_TIMEOUT : Int := 6
def STATUS_BUILD_TIMEOUT : Int := 7
def STATUS_LINT_ERROR : Int := 8
def STATUS_DRAFT : Int := 9

/-- The result record (class `CheckResult`, lines 34-50).  Field defaults are
the Python constructor defaults.  The two duration fields (`check_time`,
`build_time`) are floats measured from wall clocks and are not modelled. -/
structure CheckResult where
  check_result : Int := -1
  check_message : String := ""
  tests_passed : Nat := 0
  tests_total : Nat := 0
  lint_success : Bool := false
deriving DecidableEq

/-- Outcome of one `container.exec_run` of the run command for one test
vector, together with the environment state the loop observes afterwards:
`exited` is whether the re-queried container status is `'exited'` (line 114),
`exit_code`/`output` are the exec result (lines 120-121), and `fout` is
`get_file_from_container` on the output artifact (line 127, `none` = absent). -/
structure ExecOutcome where
  exited : Bool
  exit_code : Int
  output : String
  fout : Option String
deriving DecidableEq

/-- Result of the single `container.exec_run 'make build'` (lines 70-73). -/
structure ExecResult where
  exit_code : Int
  output : String
deriving DecidableEq

/-! ### String primitives for the comparison step

Python's `s[-1]` and `s[0:-1]` act on the character sequence, so they are
modelled on `String.data` directly. -/

/-- Last character of a string: Python `s[-1]`.  All uses are guarded by a
positive-length test, so the default is never observed. -/
def lastChar (s : String) : Char := s.data.getLastD (Char.ofNat 0)

/-- All but the last character: Python `s[0:-1]`. -/
def dropLastChar (s : String) : String := String.mk s.data.dropLast

/-- The canonicalization step, lines 131-132:

    if len(answer) > 0 and answer[-1] == '\n' and expected[-1] != '\n':
        answer = answer[0:-1]

Python evaluates the conjunction left to right; once `len(answer) > 0` and
`answer[-1] == '\n'` hold it evaluates `expected[-1]`, which raises
`IndexError` whenever `expected` is the empty string.  `none` models that
raise; `some a` is the canonicalized answer. -/
def canonicalize (answer expected : String) : Option String :=
  if 0 < answer.length ∧ lastChar answer = '\n' then
    if expected.length = 0 then none
    else if ¬ lastChar expected = '\n' then some (dropLastChar answer)
    else some answer
  else some answer

/-- Line 128: `answer = fout if fout is not None else stdout`. -/
def answerOf (e : ExecOutcome) : String :=
  match e.fout with
  | some f => f
  | none => e.output

/-- Line 135: `'For "{}" expected "{}", but got "{}"'.format(test[0], test[1], answer)`. -/
def mismatchMsg (stdin expected answer : String) : String :=
  "For \"" ++ stdin ++ "\" expected \"" ++ expected ++ "\", but got \"" ++ answer ++ "\""

/-- The body of `DockerTestThread.run` (lines 90-147).  One list item pairs a
test vector `(stdin, expected)` with the exec outcome the environment yields
for it; the loop consumes items in order.  `tests_passed` is the running
counter; `total` is `len(self.tests)` fixed at entry (line 93).  `none` means
the thread raised (the `IndexError` of `canonicalize`) and recorded no result.

The RUNTIME_ERROR branch (lines 121-125) mirrors the source exactly: it sets
the status and the message but never writes `tests_passed`, which therefore
keeps its constructor default 0. -/
def runTestsAux : List ((String × String) × ExecOutcome) → Nat → Nat → Option CheckResult
  | [], tests_passed, total =>
    some { check_result := STATUS_OK, tests_passed := tests_passed, tests_total := total }
  | (t, e) :: rest, tests_passed, total =>
    if e.exited then
      some { check_result := STATUS_CHECK_ERROR, tests_passed := tests_passed, tests_total := total }
    else if e.exit_code ≠ 0 then
      some { check_result := STATUS_RUNTIME_ERROR, check_message := e.output, tests_total := total }
    else
      match canonicalize (answerOf e) t.2 with
      | none => none
      | some answer =>
        if answer ≠ t.2 then
          some { check_result := STATUS_CHECK_ERROR,
                 check_message := mismatchMsg t.1 t.2 answer,
                 tests_passed := tests_passed, tests_total := total }
        else
          runTestsAux rest (tests_passed + 1) total

/-- One loop iteration that passes: healthy container, zero exit code, and a
canonicalized answer equal to the expected output. -/
def passes (item : (String × String) × ExecOutcome) : Prop :=
  item.2.exited = false ∧ item.2.exit_code = 0 ∧
    canonicalize (answerOf item.2) item.1.2 = some item.1.2

instance (item : (String × String) × ExecOutcome) : Decidable (passes item) := by
  unfold passes
  infer_instance

/-! ### Phase supervision (lines 154-215)

Both supervisors start a worker thread, `join` it with a wall-clock budget and
read the shared `result` field.  The budget itself is real time; what the
branches depend on is only whether the read yields `None`.  That read is the
model's input: `none` = the worker had not recorded a result when the bounded
`join` returned (budget expired, or the worker died raising an exception).

`build_solution` (lines 154-167) reads `build_thread.result` once into
`compile_result` (line 161), kills the container when it is `None`, and
returns the saved read — a late write by the killed worker is never observed.

`test_solution` (lines 170-182) is different: after the bounded `join` it
tests `test_thread.result is None` (line 177), kills the container, `join`s
without bound, and then returns `test_thread.result` RE-READ (line 182).  The
killed worker is typically still blocked in `exec_run`; once the kill makes
that call return, the worker re-queries the container, finds it `'exited'`
and records a CHECK_ERROR result with its current pass count (lines 113-118)
before the unbounded `join` finishes.  So the value returned after a timeout
is whatever the abandoned worker managed to write: the `late` parameter. -/

/-- `build_solution`: first component is the returned result, second is
whether the container was killed (budget expired). -/
def build_solution (r1 : Option ExecResult) : Option ExecResult × Bool :=
  (r1, r1.isNone)

/-- `test_solution`: `r1` is the read at line 177, `late` the re-read at
line 182 after terminate-and-join.  Second component: container killed. -/
def test_solution (r1 late : Option CheckResult) : Option CheckResult × Bool :=
  if r1.isNone then (late, true) else (r1, false)

/-- Trace of one `check_solution` session: the merged result plus which
supervision actions happened. -/
structure Session where
  result : CheckResult
  build_killed : Bool
  test_started : Bool
  test_killed : Bool
deriving DecidableEq

/-- Lines 206-215: run the test phase and map a `None` result to
`STATUS_RUNTIME_TIMEOUT` built from constructor defaults (line 209 passes
only `check_result`, so `tests_passed = 0` and `tests_total = 0`). -/
def runTestPhase (test_r1 late : Option CheckResult) : Session :=
  match test_solution test_r1 late with
  | (none, killed) =>
    { result := { check_result := STATUS_RUNTIME_TIMEOUT },
      build_killed := false, test_started := true, test_killed := killed }
  | (some r, killed) =>
    { result := r, build_killed := false, test_started := true, test_killed := killed }

/-- `check_solution` (lines 185-215).  `tests_total` is `len(tests)`,
used by the two early build returns (lines 194, 203). -/
def check_solution (need_build : Bool) (build_r1 : Option ExecResult)
    (test_r1 late : Option CheckResult) (tests_total : Nat) : Session :=
  if need_build then
    match build_solution build_r1 with
    | (none, killed) =>
      { result := { check_result := STATUS_BUILD_TIMEOUT, tests_total := tests_total },
        build_killed := killed, test_started := false, test_killed := false }
    | (some br, killed) =>
      if br.exit_code ≠ 0 then
        { result := { check_result := STATUS_BUILD_ERROR, check_message := br.output,
                      tests_total := tests_total },
          build_killed := killed, test_started := false, test_killed := false }
      else
        runTestPhase test_r1 late
  else
    runTestPhase test_r1 late

/-- Lines 257-263.  `str_lint` is the rendered text of the static-analysis
findings.  Modelled from the spec: the lint collaborator (`lint_dict` /
`lint_errors_to_str`, module `linter`, not under `src/`) is `analyze` plus
`render`; its rendered output is taken as an oracle input, empty iff there
were no findings.  The gate itself (only on `STATUS_OK`), the `lint_success`
assignment and the message append are from the source.  Second component:
whether the collaborator was invoked. -/
def applyLint (result : CheckResult) (str_lint : String) : CheckResult × Bool :=
  if result.check_result = STATUS_OK then
    ({ result with
        lint_success := decide (str_lint.length = 0),
        check_message := if str_lint.length = 0 then result.check_message
                         else result.check_message ++ "\n" ++ str_lint }, true)
  else (result, false)

/-! ### Recipe validation (lines 218-225) -/

/-- Python `haystack.find(needle)`: index of the first occurrence of `needle`
as a substring, and `-1` when there is none. -/
def pyFind (s pat : String) : Int :=
  match (List.range (s.data.length + 1)).find?
      (fun i => decide ((s.data.drop i).take pat.data.length = pat.data)) with
  | some i => (i : Int)
  | none => -1

/-- `pat` occurs as a contiguous substring of `s` (the spec-side notion used
to characterise the validation). -/
def containsSub (pat s : List Char) : Prop := ∃ u v, s = u ++ pat ++ v

/-- Line 225: `need_to_build = makefile.find('build:') != -1`. -/
def need_to_build (makefile : String) : Bool := decide (pyFind makefile "build:" ≠ -1)

/-! ### Session orchestrator (lines 218-268) -/

/-- Outcome of `check_task_multiple_files`.

* `earlyError r`: one of the two validation returns (lines 221, 223), taken
  before `docker.from_env()` — no container-engine collaborator call is made.
* `infraError provisioned msg`: one of the two raised exceptions (lines 230,
  253); `provisioned` records whether the container had been created.
* `graded ntb s lintInvoked r`: the normal path — need-to-build flag, the
  `check_solution` session trace, whether lint ran, and the final result. -/
inductive TaskOutcome where
  | earlyError (r : CheckResult)
  | infraError (provisioned : Bool) (msg : String)
  | graded (ntb : Bool) (s : Session) (lintInvoked : Bool) (r : CheckResult)
deriving DecidableEq

/-- All collaborator behavior one grading session consumes, fixed up front.

* `tar_ok` / `inject_ok`: whether `files_to_tar` (line 228) and
  `put_archive` (line 250) succeed.
* `build_budget_expired`: the build worker had no result when its bounded
  `join` returned; `build_exec` is the build exec outcome otherwise.
* `test_budget_expired`: likewise for the test phase; `execs` are the
  per-vector exec outcomes the environment yields (one per executed vector);
  `test_late` is what the abandoned test worker has written by the re-read at
  line 182 (see `test_solution`).
* `str_lint`: rendered static-analysis findings (see `applyLint`). -/
structure SessionOracle where
  tar_ok : Bool
  inject_ok : Bool
  build_budget_expired : Bool
  build_exec : ExecResult
  test_budget_expired : Bool
  execs : List ExecOutcome
  test_late : Option CheckResult
  str_lint : String
deriving DecidableEq

/-- `check_task_multiple_files` (lines 218-268).  The staging-directory and
teardown side effects (lines 232-247, 265-266) have no bearing on any claim
and are not modelled. -/
def check_task_multiple_files (source_code : List (String × String))
    (tests : List (String × String)) (env : SessionOracle) : TaskOutcome :=
  match source_code.lookup "Makefile" with
  | none =>
    .earlyError { check_result := STATUS_BUILD_ERROR, check_message := "No Makefile found!" }
  | some makefile =>
    if pyFind makefile "run:" = -1 then
      .earlyError { check_result := STATUS_BUILD_ERROR,
                    check_message := "Makefile must contain \"run:\"" }
    else
      if !env.tar_ok then .infraError false "Unable to parse source code!"
      else if !env.inject_ok then .infraError true "Unable to create requested filesystem!"
      else
        let build_r1 : Option ExecResult :=
          if env.build_budget_expired then none else some env.build_exec
        let test_r1 : Option CheckResult :=
          if env.test_budget_expired then none
          else runTestsAux (tests.zip env.execs) 0 tests.length
        let late : Option CheckResult :=
          if env.test_budget_expired then env.test_late else test_r1
        let s := check_solution (need_to_build makefile) build_r1 test_r1 late tests.length
        let lr := applyLint s.result env.str_lint
        .graded (need_to_build makefile) s lr.2 lr.1

/-! ### Step 1 of the test loop: the stdin file (line 98) -/

/-- Modelled from the spec: `create_file path content`
(`solution_checker.utils`, not under `src/`) writes `content` to the file,
overwriting any prior content; the file afterwards holds exactly the string
written.  Only the content state of the single fixed input file is modelled,
so the path argument is dropped and `prior` is the previous content. -/
def create_file (prior : Option String) (content : String) : String := content

/-- Line 98: `create_file(self.stdin_file_path, '{}\n'.format(stdin))` —
the content written is the vector's stdin with a newline appended.  Returns
the input file's content after step 1. -/
def writeStdinFile (prior : Option String) (stdin : String) : String :=
  create_file prior (stdin ++ "\n")

/-! ### The comparison relation, as the spec words it (for claim C3) -/

/-- The code's comparison step as a partial function: `some true` = the
canonicalized answer equals the expected output (test passes), `some false` =
mismatch, `none` = the canonicalization raised. -/
def compareOutputs (answer expected : String) : Option Bool :=
  (canonicalize answer expected).map (fun a => decide (a = expected))

/-- The comparison predicate exactly as the claim states it: when the
expected output has no trailing line terminator and the answer ends with
exactly one trailing line terminator, success is equality after stripping
that terminator; in every other case the two strings are compared exactly. -/
def specCompare (answer expected : String) : Bool :=
  if (0 < answer.length ∧ lastChar answer = '\n') ∧
     ¬ (0 < (dropLastChar answer).length ∧ lastChar (dropLastChar answer) = '\n') ∧
     ¬ (0 < expected.length ∧ lastChar expected = '\n')
  then decide (dropLastChar answer = expected)
  else decide (answer = expected)

/-! ## Theorems -/

/-- A prefix of passing vectors is consumed without changing anything but the
running counter. -/
theorem runTestsAux_passes_append (pre rest : List ((String × String) × ExecOutcome))
    (n total : Nat) (hpre : ∀ p ∈ pre, passes p) :
    runTestsAux (pre ++ rest) n total = runTestsAux rest (n + pre.length) total := by
  induction pre generalizing n with
  | nil => simp
  | cons p pre ih =>
    obtain ⟨t, e⟩ := p
    obtain ⟨h1, h2, h3⟩ := hpre (t, e) (List.mem_cons_self _ _)
    dsimp only at h1 h2 h3
    have hstep : runTestsAux (((t, e) :: pre) ++ rest) n total
        = runTestsAux (pre ++ rest) (n + 1) total := by
      simp [runTestsAux, h1, h2, h3]
    rw [hstep, ih (n + 1) (fun q hq => hpre q (List.mem_cons_of_mem _ hq))]
    have harith : n + 1 + pre.length = n + ((t, e) :: pre).length := by
      simp only [List.length_cons]
      omega
    rw [harith]

/-- C1: if vector k (1-indexed) is the first whose canonicalized answer
differs from its expected output, the Test Runner returns CHECK_ERROR with
`tests_passed = k - 1` and the formatted mismatch message; the vectors after
k (`post`, universally quantified and absent from the result) are never
executed.  Here `pre` is the passing prefix, so `k - 1 = pre.length`. -/
theorem runTests_first_mismatch
    (pre post : List ((String × String) × ExecOutcome)) (t : String × String)
    (e : ExecOutcome) (total : Nat) (a : String)
    (hpre : ∀ p ∈ pre, passes p)
    (hexited : e.exited = false) (hcode : e.exit_code = 0)
    (hcanon : canonicalize (answerOf e) t.2 = some a) (hne : a ≠ t.2) :
    runTestsAux (pre ++ (t, e) :: post) 0 total =
      some { check_result := STATUS_CHECK_ERROR,
             check_message := mismatchMsg t.1 t.2 a,
             tests_passed := pre.length, tests_total := total } := by
  rw [runTestsAux_passes_append pre _ 0 total hpre]
  simp [runTestsAux, hexited, hcode, hcanon, hne]

/-- Witness for C1: one passing vector, then a mismatch ("d" against "c"),
then a further vector that is ignored. -/
theorem runTests_first_mismatch_witness :
    passes (("a", "a"), (⟨false, 0, "", some "a"⟩ : ExecOutcome)) ∧
    runTestsAux ([(("a", "a"), ⟨false, 0, "", some "a"⟩)] ++
        (("b", "c"), (⟨false, 0, "", some "d"⟩ : ExecOutcome)) ::
          [(("p", "q"), ⟨true, 7, "zz", none⟩)]) 0 2 =
      some { check_result := STATUS_CHECK_ERROR,
             check_message := mismatchMsg "b" "c" "d",
             tests_passed := 1, tests_total := 2 } :=
  ⟨by decide,
   runTests_first_mismatch _ _ _ _ 2 "d" (by decide) rfl rfl (by decide) (by decide)⟩

/-- Counterexample to C2 as stated: after one passed vector, a RUNTIME_ERROR
at vector 2 yields `tests_passed = 0`, not `k - 1 = 1`: the RUNTIME_ERROR
branch (lines 121-125) never writes `tests_passed`. -/
theorem runtime_error_zero_tests_passed_cex :
    runTestsAux [(("a", "a"), ⟨false, 0, "", some "a"⟩),
                 (("b", "b"), ⟨false, 1, "boom", none⟩)] 0 2 =
      some { check_result := STATUS_RUNTIME_ERROR, check_message := "boom",
             tests_passed := 0, tests_total := 2 } ∧ (0 : Nat) ≠ 1 := by
  decide

/-- C2 amended: `tests_passed = k - 1` is preserved on the two CHECK_ERROR
outcomes (environment death, and — see `runTests_first_mismatch` — mismatch);
on a RUNTIME_ERROR at vector k the result's `tests_passed` is left at its
initial 0; and on RUNTIME_TIMEOUT it is 0. -/
theorem tests_passed_preservation_amended
    (pre post : List ((String × String) × ExecOutcome)) (t : String × String)
    (e : ExecOutcome) (total : Nat)
    (hpre : ∀ p ∈ pre, passes p) :
    (e.exited = true →
      runTestsAux (pre ++ (t, e) :: post) 0 total =
        some { check_result := STATUS_CHECK_ERROR, tests_passed := pre.length,
               tests_total := total }) ∧
    (e.exited = false → e.exit_code ≠ 0 →
      runTestsAux (pre ++ (t, e) :: post) 0 total =
        some { check_result := STATUS_RUNTIME_ERROR, check_message := e.output,
               tests_passed := 0, tests_total := total }) ∧
    (runTestPhase none none).result.tests_passed = 0 := by
  refine ⟨?_, ?_, rfl⟩
  · intro hex
    rw [runTestsAux_passes_append pre _ 0 total hpre]
    simp [runTestsAux, hex]
  · intro hex hcode
    rw [runTestsAux_passes_append pre _ 0 total hpre]
    simp [runTestsAux, hex, hcode]

/-- Witness for the amended C2: the RUNTIME_ERROR case at vector 2 after one
passed vector. -/
theorem tests_passed_preservation_amended_witness :
    passes (("a", "a"), (⟨false, 0, "", some "a"⟩ : ExecOutcome)) ∧
    runTestsAux ([(("a", "a"), ⟨false, 0, "", some "a"⟩)] ++
        (("b", "b"), (⟨false, 1, "boom", none⟩ : ExecOutcome)) :: []) 0 2 =
      some { check_result := STATUS_RUNTIME_ERROR, check_message := "boom",
             tests_passed := 0, tests_total := 2 } :=
  ⟨by decide,
   (tests_passed_preservation_amended [(("a", "a"), ⟨false, 0, "", some "a"⟩)] [] ("b", "b")
      ⟨false, 1, "boom", none⟩ 2 (by decide)).2.1 rfl (by decide)⟩

/-- C9: for a vector whose expected output is empty while the obtained answer
is non-empty and ends with a line terminator, the canonicalization indexes
`expected[-1]` with no emptiness guard and raises, so the Test Runner records
no result at all for the session. -/
theorem canonicalize_empty_expected_raises
    (pre post : List ((String × String) × ExecOutcome)) (stdin : String)
    (e : ExecOutcome) (total : Nat)
    (hpre : ∀ p ∈ pre, passes p)
    (hexited : e.exited = false) (hcode : e.exit_code = 0)
    (hlen : 0 < (answerOf e).length) (hlast : lastChar (answerOf e) = '\n') :
    canonicalize (answerOf e) "" = none ∧
    runTestsAux (pre ++ ((stdin, ""), e) :: post) 0 total = none := by
  have hc : canonicalize (answerOf e) "" = none := by
    unfold canonicalize
    rw [if_pos ⟨hlen, hlast⟩, if_pos (show ("" : String).length = 0 from rfl)]
  refine ⟨hc, ?_⟩
  rw [runTestsAux_passes_append pre _ 0 total hpre]
  simp [runTestsAux, hexited, hcode, hc]

/-- Witness for C9: answer "y\n" (from stdout) against expected "". -/
theorem canonicalize_empty_expected_raises_witness :
    lastChar (answerOf ⟨false, 0, "y\n", none⟩) = '\n' ∧
    (canonicalize (answerOf (⟨false, 0, "y\n", none⟩ : ExecOutcome)) "" = none ∧
     runTestsAux ([] ++ (("x", ""), (⟨false, 0, "y\n", none⟩ : ExecOutcome)) :: []) 0 1 = none) :=
  ⟨by decide,
   canonicalize_empty_expected_raises [] [] "x" ⟨false, 0, "y\n", none⟩ 1
     (by decide) rfl rfl (by decide) (by decide)⟩

/-- Counterexample to C3 as stated: for answer `"\n"` and expected `""` the
claim's comparison succeeds (strip the lone terminator, compare `""` with
`""`), but the code produces no comparison result at all — canonicalization
raises (see `canonicalize_empty_expected_raises`). -/
theorem compare_empty_expected_cex :
    compareOutputs "\n" "" = none ∧ specCompare "\n" "" = true := by
  decide

/-- C3 amended: for every pair with a NON-EMPTY expected output the code's
comparison is total and agrees exactly with the claim's predicate: strip one
trailing terminator when the answer ends with exactly one and the expected
value has none, otherwise compare exactly.  (With an empty expected output
and an answer ending in a terminator the comparison raises instead.) -/
theorem compare_matches_spec_on_nonempty_expected (a e : String) (he : e ≠ "") :
    compareOutputs a e = some (specCompare a e) := by
  have hel : e.length ≠ 0 := by
    cases e with
    | mk data =>
      cases data with
      | nil => exact absurd rfl he
      | cons c cs => simp [String.length]
  have helpos : 0 < e.length := Nat.pos_of_ne_zero hel
  unfold compareOutputs canonicalize specCompare
  by_cases hA : 0 < a.length ∧ lastChar a = '\n'
  · rw [if_pos hA, if_neg hel]
    by_cases hE : lastChar e = '\n'
    · rw [if_neg (not_not_intro hE), if_neg (fun h => h.2.2 ⟨helpos, hE⟩)]
      rfl
    · rw [if_pos hE]
      by_cases hD : 0 < (dropLastChar a).length ∧ lastChar (dropLastChar a) = '\n'
      · rw [if_neg (fun h => h.2.1 hD)]
        show some (decide (dropLastChar a = e)) = some (decide (a = e))
        congr 1
        rw [decide_eq_decide]
        constructor
        · intro h
          exact absurd (h ▸ hD.2) hE
        · intro h
          exact absurd (h ▸ hA.2) hE
      · rw [if_pos ⟨hA, hD, fun hh => hE hh.2⟩]
        rfl
  · rw [if_neg hA, if_neg (fun h => hA h.1)]
    rfl

/-- Witness for the amended C3: answer `"x\n"` against expected `"x"`. -/
theorem compare_matches_spec_witness :
    ("x" : String) ≠ "" ∧ compareOutputs "x\n" "x" = some (specCompare "x\n" "x") :=
  ⟨by decide, compare_matches_spec_on_nonempty_expected "x\n" "x" (by decide)⟩

/-- Counterexample to C5 as stated: for the vector stdin `"3"` the written
file content is `"3\n"`, not `"3"` — line 98 formats `'{}\n'`. -/
theorem stdin_file_appends_newline_cex :
    writeStdinFile none "3" = "3\n" ∧ ("3\n" : String) ≠ "3" := by
  decide

/-- C5 amended: step 1 writes the vector's stdin text followed by one
appended newline to the fixed input file, overwriting any prior content
(the result is independent of `prior`). -/
theorem stdin_file_content_amended (prior : Option String) (stdin : String) :
    writeStdinFile prior stdin = stdin ++ "\n" := rfl

/-- Counterexample to C4 as stated: a session whose test phase misses its
budget (`test_r1 = none` at the line-177 check) but whose abandoned worker
has recorded a CHECK_ERROR result by the re-read at line 182 (the worker's
own lines 113-118 run once the killed container makes `exec_run` return)
yields verdict CHECK_ERROR with `tests_passed = 1` — not RUNTIME_TIMEOUT
with zero. -/
theorem timeout_late_result_cex :
    (check_solution false none none
        (some { check_result := STATUS_CHECK_ERROR, tests_passed := 1, tests_total := 2 })
        2).test_started = true ∧
    (check_solution false none none
        (some { check_result := STATUS_CHECK_ERROR, tests_passed := 1, tests_total := 2 })
        2).result.check_result = STATUS_CHECK_ERROR ∧
    (check_solution false none none
        (some { check_result := STATUS_CHECK_ERROR, tests_passed := 1, tests_total := 2 })
        2).result.tests_passed = 1 ∧
    STATUS_CHECK_ERROR ≠ STATUS_RUNTIME_TIMEOUT := by
  decide

/-- C4 amended: a session that reaches the test phase and whose test phase
misses its aggregate budget gets verdict RUNTIME_TIMEOUT with
`tests_passed = 0` PROVIDED the abandoned worker has still recorded no
result when the supervisor re-reads the shared field after forced
termination; a late-recorded result is returned instead (see
`timeout_late_result_cex`). -/
theorem timeout_without_late_result_runtime_timeout
    (ntb : Bool) (br : Option ExecResult) (total : Nat)
    (hstart : (check_solution ntb br none none total).test_started = true) :
    (check_solution ntb br none none total).result.check_result = STATUS_RUNTIME_TIMEOUT ∧
    (check_solution ntb br none none total).result.tests_passed = 0 := by
  cases ntb with
  | false => exact ⟨rfl, rfl⟩
  | true =>
    cases br with
    | none => simp [check_solution, build_solution] at hstart
    | some b =>
      by_cases hc : b.exit_code ≠ 0
      · simp [check_solution, build_solution, hc] at hstart
      · simp [check_solution, build_solution, hc, runTestPhase, test_solution]

/-- Witness for the amended C4: no build needed, budget missed, no late
write. -/
theorem timeout_without_late_result_witness :
    (check_solution false none none none 2).test_started = true ∧
    ((check_solution false none none none 2).result.check_result = STATUS_RUNTIME_TIMEOUT ∧
     (check_solution false none none none 2).result.tests_passed = 0) :=
  ⟨by decide, timeout_without_late_result_runtime_timeout false none 2 (by decide)⟩

/-- C6: with a build required and the build budget missed (the supervisor's
single read of the worker result, taken BEFORE the kill at line 161, is
`None`), the session returns BUILD_TIMEOUT, the environment is killed, and
the test phase never starts — the result is one fixed record for every
possible test-phase behavior (`test_r1`, `late` are arbitrary and absent
from it). -/
theorem build_timeout_skips_tests
    (test_r1 late : Option CheckResult) (total : Nat) :
    check_solution true none test_r1 late total =
      { result := { check_result := STATUS_BUILD_TIMEOUT, tests_total := total },
        build_killed := true, test_started := false, test_killed := false } := rfl

/-- Python `find` semantics: `s.find(pat) != -1` exactly when `pat` occurs as
a contiguous substring of `s`. -/
theorem pyFind_ne_iff (s pat : String) :
    pyFind s pat ≠ -1 ↔ containsSub pat.data s.data := by
  unfold pyFind containsSub
  constructor
  · intro h
    cases hf : (List.range (s.data.length + 1)).find?
        (fun i => decide ((s.data.drop i).take pat.data.length = pat.data)) with
    | none =>
      rw [hf] at h
      exact absurd rfl h
    | some i =>
      have hp := List.find?_some hf
      have hmatch : (s.data.drop i).take pat.data.length = pat.data := of_decide_eq_true hp
      refine ⟨s.data.take i, (s.data.drop i).drop pat.data.length, ?_⟩
      calc s.data = s.data.take i ++ s.data.drop i := (List.take_append_drop i s.data).symm
        _ = s.data.take i ++ ((s.data.drop i).take pat.data.length
              ++ (s.data.drop i).drop pat.data.length) := by
            rw [List.take_append_drop pat.data.length (s.data.drop i)]
        _ = s.data.take i ++ pat.data ++ (s.data.drop i).drop pat.data.length := by
            rw [hmatch, List.append_assoc]
  · rintro ⟨u, v, huv⟩
    cases hf : (List.range (s.data.length + 1)).find?
        (fun i => decide ((s.data.drop i).take pat.data.length = pat.data)) with
    | some i =>
      show (i : Int) ≠ -1
      omega
    | none =>
      exfalso
      have hall := List.find?_eq_none.mp hf
      have hmem : u.length ∈ List.range (s.data.length + 1) := by
        rw [List.mem_range, huv]
        simp only [List.length_append]
        omega
      apply hall u.length hmem
      have hdrop : s.data.drop u.length = pat.data ++ v := by
        rw [huv, List.append_assoc, List.drop_left]
      rw [hdrop]
      simp [List.take_left]

/-- The lint step (lines 257-263) as a frame property of `applyLint`:
invoked exactly on STATUS_OK; on invocation `lint_success` records whether
the rendered findings are empty, the findings are appended to the message
after a newline separator when non-empty, and the status and count fields
are untouched; off the STATUS_OK path the result is returned unchanged. -/
theorem applyLint_frame (R : CheckResult) (t : String) :
    ((applyLint R t).2 = true ↔ R.check_result = STATUS_OK) ∧
    (R.check_result = STATUS_OK →
      (applyLint R t).1.check_result = R.check_result ∧
      (applyLint R t).1.tests_passed = R.tests_passed ∧
      (applyLint R t).1.tests_total = R.tests_total ∧
      (applyLint R t).1.lint_success = decide (t.length = 0) ∧
      (applyLint R t).1.check_message = (if t.length = 0 then R.check_message
                                         else R.check_message ++ "\n" ++ t)) ∧
    (R.check_result ≠ STATUS_OK → (applyLint R t).2 = false ∧ (applyLint R t).1 = R) := by
  unfold applyLint
  by_cases h : R.check_result = STATUS_OK
  · rw [if_pos h]
    exact ⟨by simp [h], fun _ => ⟨rfl, rfl, rfl, rfl, rfl⟩, fun hn => absurd h hn⟩
  · rw [if_neg h]
    exact ⟨by simp [h], fun ho => absurd ho h, fun _ => ⟨rfl, rfl⟩⟩

/-- C7: a missing Makefile, or a Makefile whose `run:` check fails, makes the
session return BUILD_ERROR with the explanatory message through the
`earlyError` exit — the return at line 221/223, taken before
`docker.from_env()`, so no container-engine collaborator call is made. -/
theorem missing_run_target_build_error
    (source tests : List (String × String)) (env : SessionOracle) :
    (source.lookup "Makefile" = none →
      check_task_multiple_files source tests env =
        .earlyError { check_result := STATUS_BUILD_ERROR,
                      check_message := "No Makefile found!" }) ∧
    (∀ mk, source.lookup "Makefile" = some mk → pyFind mk "run:" = -1 →
      check_task_multiple_files source tests env =
        .earlyError { check_result := STATUS_BUILD_ERROR,
                      check_message := "Makefile must contain \"run:\"" }) := by
  constructor
  · intro h
    unfold check_task_multiple_files
    rw [h]
  · intro mk h hrun
    unfold check_task_multiple_files
    rw [h]
    simp [hrun]

/-- Witness for C7: a submission with no Makefile entry at all. -/
theorem missing_run_target_build_error_witness :
    check_task_multiple_files [("main.c", "int main;")] []
        ⟨true, true, false, ⟨0, ""⟩, false, [], none, ""⟩ =
      .earlyError { check_result := STATUS_BUILD_ERROR,
                    check_message := "No Makefile found!" } :=
  (missing_run_target_build_error [("main.c", "int main;")] []
      ⟨true, true, false, ⟨0, ""⟩, false, [], none, ""⟩).1 (by decide)

/-- C10: recipe validation is a substring test.  With a Makefile present, the
run-target rejection happens exactly when `"run:"` does not occur as a
substring of the Makefile text (wherever it occurs — comments included), and
the need-to-build flag is set exactly when `"build:"` occurs as a
substring. -/
theorem recipe_validation_substring
    (source tests : List (String × String)) (env : SessionOracle) (mk : String)
    (hmk : source.lookup "Makefile" = some mk) :
    ((check_task_multiple_files source tests env =
        .earlyError { check_result := STATUS_BUILD_ERROR,
                      check_message := "Makefile must contain \"run:\"" })
      ↔ ¬ containsSub ("run:").data mk.data) ∧
    (need_to_build mk = true ↔ containsSub ("build:").data mk.data) := by
  constructor
  · constructor
    · intro h hin
      have hne : pyFind mk "run:" ≠ -1 := (pyFind_ne_iff mk "run:").mpr hin
      unfold check_task_multiple_files at h
      rw [hmk] at h
      dsimp only at h
      rw [if_neg hne] at h
      split at h
      · exact absurd h (by simp)
      · split at h
        · exact absurd h (by simp)
        · exact absurd h (by simp)
    · intro hnin
      have heq : pyFind mk "run:" = -1 :=
        not_not.mp (fun hne => hnin ((pyFind_ne_iff mk "run:").mp hne))
      unfold check_task_multiple_files
      rw [hmk]
      simp [heq]
  · unfold need_to_build
    rw [decide_eq_true_eq]
    exact pyFind_ne_iff mk "build:"

/-- Witness for C10: a Makefile whose only `run:` occurrence is inside a
comment still passes the run-target check (the left side of the equivalence
is false, so the right side must be false too: the substring does occur). -/
theorem recipe_validation_substring_witness :
    ([("Makefile", "# run: doc")].lookup "Makefile" = some "# run: doc") ∧
    ((check_task_multiple_files [("Makefile", "# run: doc")] []
          ⟨true, true, false, ⟨0, ""⟩, false, [], none, ""⟩ =
        .earlyError { check_result := STATUS_BUILD_ERROR,
                      check_message := "Makefile must contain \"run:\"" })
      ↔ ¬ containsSub ("run:").data ("# run: doc").data) :=
  ⟨by decide,
   (recipe_validation_substring [("Makefile", "# run: doc")] []
      ⟨true, true, false, ⟨0, ""⟩, false, [], none, ""⟩ "# run: doc" (by decide)).1⟩

/-- C8: in every session that reaches grading, the lint collaborator is
invoked iff the test-phase verdict is STATUS_OK; when invoked,
`lint_success` records whether there were no findings, non-empty findings
are appended to the message after a newline separator, and the status and
count fields are unchanged; on any other verdict the result passes through
untouched and lint is not invoked. -/
theorem lint_gate_and_frame
    (source tests : List (String × String)) (env : SessionOracle)
    (ntb : Bool) (s : Session) (li : Bool) (r : CheckResult)
    (hg : check_task_multiple_files source tests env = .graded ntb s li r) :
    (li = true ↔ s.result.check_result = STATUS_OK) ∧
    (s.result.check_result = STATUS_OK →
      r.check_result = s.result.check_result ∧
      r.tests_passed = s.result.tests_passed ∧
      r.tests_total = s.result.tests_total ∧
      r.lint_success = decide (env.str_lint.length = 0) ∧
      r.check_message = (if env.str_lint.length = 0 then s.result.check_message
                         else s.result.check_message ++ "\n" ++ env.str_lint)) ∧
    (s.result.check_result ≠ STATUS_OK → li = false ∧ r = s.result) := by
  unfold check_task_multiple_files at hg
  cases hlk : source.lookup "Makefile" with
  | none =>
    rw [hlk] at hg
    exact absurd hg (by simp)
  | some mk =>
    rw [hlk] at hg
    dsimp only at hg
    split at hg
    · exact absurd hg (by simp)
    · split at hg
      · exact absurd hg (by simp)
      · split at hg
        · exact absurd hg (by simp)
        · injection hg with h1 h2 h3 h4
          subst h1
          subst h2
          subst h3
          subst h4
          exact applyLint_frame _ env.str_lint

/-- Witness for C8: a one-vector passing session with rendered findings
"warn"; lint is invoked (the grading outcome records `lintInvoked = true`
and verdict STATUS_OK). -/
theorem lint_gate_and_frame_witness :
    (check_task_multiple_files [("Makefile", "run:")] [("1", "1")]
        ⟨true, true, false, ⟨0, ""⟩, false, [⟨false, 0, "", some "1"⟩], none, "warn"⟩ =
      TaskOutcome.graded false
        ⟨{ check_result := STATUS_OK, tests_passed := 1, tests_total := 1 }, false, true, false⟩
        true
        { check_result := STATUS_OK, check_message := "\nwarn",
          tests_passed := 1, tests_total := 1 }) ∧
    (true = true ↔
      ({ check_result := STATUS_OK, tests_passed := 1, tests_total := 1 } :
          CheckResult).check_result = STATUS_OK) :=
  ⟨by decide,
   (lint_gate_and_frame [("Makefile", "run:")] [("1", "1")]
      ⟨true, true, false, ⟨0, ""⟩, false, [⟨false, 0, "", some "1"⟩], none, "warn"⟩
      false
      ⟨{ check_result := STATUS_OK, tests_passed := 1, tests_total := 1 }, false, true, false⟩
      true
      { check_result := STATUS_OK, check_message := "\nwarn",
        tests_passed := 1, tests_total := 1 }
      (by decide)).1⟩
